import Mathlib

/-!
Shallow embedding of the mana-hr-backend core: the attendance session
engine (AttendanceService in src/services/DashboardService.ts, the
Attendance mongoose schema in src/models/Attendance.ts), the role and
permission model (RoleService in src/services/DocumentService.ts,
src/models/Role.ts), the user queries (UserService in
src/services/UserService.ts) and the organization-code middleware
(src/middlewares/organizationCode.ts).

Conventions of the embedding:
- timestamps are milliseconds since the epoch, as `Int` (JS `Date.getTime`);
- fractional hours are `ℚ` (exact arithmetic in place of JS doubles; the
  formulas involved, `ms / 3600000` and two-decimal rounding, are the
  same);
- Mongo documents are Lean structures, collections are Lean lists, and
  `findOne` / `findById` are `List.find?` (first match in natural order);
- each service method that throws becomes a function returning the
  untouched state together with `Except` of the thrown ApiError/AppError
  (every modeled throw happens before any write in the source);
- JS string uppercasing is modeled on ASCII letters, and JS `trim` on the
  ASCII whitespace characters.
-/

namespace ManaHR

/-- ASCII uppercasing of one character, the fragment of JS
`String.prototype.toUpperCase` exercised by the code. -/
def asciiUpperChar (c : Char) : Char :=
  if c.toNat ≥ 97 ∧ c.toNat ≤ 122 then Char.ofNat (c.toNat - 32) else c

/-- JS `s.toUpperCase()` on ASCII strings. -/
def jsToUpper (s : String) : String :=
  String.mk (s.data.map asciiUpperChar)

/-- ASCII whitespace, the fragment of the JS `trim` character class the
code can meet. -/
def isJsSpace (c : Char) : Bool :=
  c == ' ' || c == '\t' || c == '\n' || c == '\r' ||
  c == Char.ofNat 11 || c == Char.ofNat 12

/-- JS `s.trim()`: strip leading and trailing whitespace. -/
def jsTrim (s : String) : String :=
  String.mk (((s.data.dropWhile isJsSpace).reverse.dropWhile isJsSpace).reverse)

/-- JS truthiness of a `string | undefined` value: `undefined` and the
empty string are falsy. -/
def jsTruthy : Option String → Bool
  | none => false
  | some s => !s.isEmpty

/-- JS `a || b` on `string | undefined` values. -/
def jsOrStr (a b : Option String) : Option String :=
  if jsTruthy a then a else b

/-- The error object sent by `sendError(res, status, message)` in
src/utils/response.ts, and thrown as `ApiError(message, status)`. -/
structure ApiError where
  message : String
  status : Nat
deriving DecidableEq, Repr

/-- `^[A-Z0-9]{2,10}$`: one character of the accepted class. -/
def isOrgCodeChar (c : Char) : Bool :=
  (c.toNat ≥ 65 && c.toNat ≤ 90) || (c.toNat ≥ 48 && c.toNat ≤ 57)

/-- The regex test `/^[A-Z0-9]{2,10}$/.test s` from
src/middlewares/organizationCode.ts. -/
def orgCodeFormat (s : String) : Bool :=
  2 ≤ s.length && s.length ≤ 10 && s.data.all isOrgCodeChar

/-- The request fields read by `extractOrganizationCode`: the
`x-organization-code` header, `body.organizationCode` and
`query.organizationCode`, each a string or absent. -/
structure OrgRequest where
  header : Option String
  body : Option String
  query : Option String

/-- src/middlewares/organizationCode.ts `extractOrganizationCode`,
translated statement by statement: take the header; if falsy fall back to
the body, then to the query; reject 400 when still falsy; trim, uppercase,
test against `^[A-Z0-9]{2,10}$`; store the normalized code on success. -/
def extractOrganizationCode (req : OrgRequest) : Except ApiError String :=
  let orgCode := req.header
  let orgCode := if !jsTruthy orgCode && jsTruthy req.body then req.body else orgCode
  let orgCode := if !jsTruthy orgCode && jsTruthy req.query then req.query else orgCode
  match orgCode with
  | none =>
      .error ⟨"Organization code is required. Please provide it in X-Organization-Code header, request body, or query parameter.", 400⟩
  | some s =>
      if s.isEmpty then
        .error ⟨"Organization code is required. Please provide it in X-Organization-Code header, request body, or query parameter.", 400⟩
      else
        let trimmedOrgCode := jsToUpper (jsTrim s)
        if orgCodeFormat trimmedOrgCode then
          .ok trimmedOrgCode
        else
          .error ⟨"Invalid organization code format. Must be 2-10 characters, alphanumeric only.", 400⟩

/-- The precedence rule of the middleware, as its own function: the first
truthy source among header, body, query. -/
def pickOrgCode (req : OrgRequest) : Option String :=
  if jsTruthy req.header then req.header
  else if jsTruthy req.body then req.body
  else if jsTruthy req.query then req.query
  else none

/-- The set of accepted inputs, per the amended reading: the picked source
must pass the format test after trimming and uppercasing, and the stored
value is the trimmed uppercased code. -/
def acceptedOrgCode (req : OrgRequest) : Option String :=
  match pickOrgCode req with
  | none => none
  | some s =>
      let t := jsToUpper (jsTrim s)
      if orgCodeFormat t then some t else none

/-! ## Attendance session engine (src/services/DashboardService.ts, src/models/Attendance.ts) -/

/-- src/types/index.ts `AttendanceStatus`. -/
inductive AttendanceStatus where
  | present
  | absent
  | late
  | half_day
  | work_from_home
deriving DecidableEq, Repr

/-- src/types/index.ts `UserStatus`. -/
inductive UserStatus where
  | active
  | inactive
  | suspended
deriving DecidableEq, Repr

/-- The error object of `AppError(message, statusCode)` in
src/middlewares/error.ts. -/
structure AppError where
  message : String
  status : Nat
deriving DecidableEq, Repr

/-- The fields of the User document read by the modeled services
(src/models/User.ts): identity, numeric role level, status and tenant. -/
structure UserDoc where
  userId : Nat
  email : String
  fullName : String
  role : Nat
  status : UserStatus
  organizationCode : String
deriving DecidableEq, Repr

/-- `User.findById(id)`. -/
def userFindById (users : List UserDoc) (id : Nat) : Option UserDoc :=
  users.find? (fun u => u.userId == id)

/-- One Attendance document (src/models/Attendance.ts): `checkIn` is
required by the schema, `checkOut` and `totalHours` optional. -/
structure AttendanceRecord where
  recId : Nat
  employeeId : Nat
  date : Int
  checkIn : Int
  checkOut : Option Int
  totalHours : Option ℚ
  status : AttendanceStatus
  notes : Option String
  isLoggedIn : Bool
deriving DecidableEq, Repr

/-- The attendance collection with the next fresh document id. -/
structure AttendanceDb where
  records : List AttendanceRecord
  nextId : Nat
deriving DecidableEq, Repr

/-- Milliseconds in a day. -/
def msPerDay : Int := 86400000

/-- `new Date(d.getFullYear(), d.getMonth(), d.getDate()).getTime()`:
local midnight of the calendar day holding `t` (fixed-offset local clock,
normalized to offset 0; `/` on `Int` is floor division for a positive
divisor). -/
def localMidnight (t : Int) : Int := msPerDay * (t / msPerDay)

/-- JS `Math.round x = ⌊x + 1/2⌋`, then two-decimal rounding
`Math.round (x * 100) / 100` used for hours. -/
def round2 (q : ℚ) : ℚ := ((round (q * 100) : ℤ) : ℚ) / 100

/-- src/models/Attendance.ts pre-save middleware: when both checkIn and
checkOut are present, recompute
`totalHours = Math.round ((diffMs / 3600000) * 100) / 100`. -/
def preSaveTotalHours (r : AttendanceRecord) : AttendanceRecord :=
  match r.checkOut with
  | some co => { r with totalHours := some (round2 (((co - r.checkIn : Int) : ℚ) / 3600000)) }
  | none => r

/-- `AttendanceService.getTodayAttendance(userId, date)`: the first record
of the employee whose `date` or `checkIn` falls inside the local calendar
day of `date` (`findOne` with the `$or` of two range filters). -/
def getTodayAttendance (records : List AttendanceRecord) (userId : Nat) (date : Int) :
    Option AttendanceRecord :=
  let startOfDay := localMidnight date
  let endOfDay := startOfDay + (msPerDay - 1)
  records.find? (fun r =>
    r.employeeId == userId &&
    ((decide (startOfDay ≤ r.date) && decide (r.date ≤ endOfDay)) ||
     (decide (startOfDay ≤ r.checkIn) && decide (r.checkIn ≤ endOfDay))))

/-- `Attendance.findById` on the collection. -/
def findAttendanceById (records : List AttendanceRecord) (id : Nat) : Option AttendanceRecord :=
  records.find? (fun r => r.recId == id)

/-- Replace the document with the same `_id` (a `findByIdAndUpdate` /
`save` write-back). -/
def replaceRecord (records : List AttendanceRecord) (r : AttendanceRecord) :
    List AttendanceRecord :=
  records.map (fun x => if x.recId == r.recId then r else x)

/-- The input of `markAttendance` (src/types `MarkAttendanceData`). -/
structure MarkAttendanceData where
  employeeId : Nat
  checkIn : Int
  checkOut : Option Int := none
  status : Option AttendanceStatus := none
  notes : Option String := none

/-- `AttendanceService.markAttendance(attendanceData, createdBy)`:
verify the employee id resolves (404 otherwise); look up the record of the
local calendar day of `checkIn`; when one exists, update notes
(`attendanceData.notes || existingRecord.notes`), force status PRESENT and
isLoggedIn, unset checkOut when set and keep totalHours, never touching
checkIn; when none exists, create a fresh record for the day (the create
runs the pre-save hook). Errors leave the collection untouched. -/
def markAttendance (users : List UserDoc) (db : AttendanceDb)
    (d : MarkAttendanceData) (_createdBy : Nat) :
    AttendanceDb × Except AppError AttendanceRecord :=
  match userFindById users d.employeeId with
  | none => (db, .error ⟨"Employee not found", 404⟩)
  | some _ =>
      let localDate := localMidnight d.checkIn
      match getTodayAttendance db.records d.employeeId localDate with
      | some existingRecord =>
          let updated : AttendanceRecord :=
            { existingRecord with
              notes := jsOrStr d.notes existingRecord.notes
              status := AttendanceStatus.present
              isLoggedIn := true
              checkOut := none }
          ({ db with records := replaceRecord db.records updated }, .ok updated)
      | none =>
          let fresh : AttendanceRecord :=
            preSaveTotalHours
              { recId := db.nextId
                employeeId := d.employeeId
                date := localDate
                checkIn := d.checkIn
                checkOut := d.checkOut
                totalHours := none
                status := d.status.getD AttendanceStatus.present
                notes := d.notes
                isLoggedIn := true }
          ({ records := db.records ++ [fresh], nextId := db.nextId + 1 }, .ok fresh)

/-- Notes rewriting of `markCheckOut`: append a checkout note when one was
given (JS truthiness on both strings). -/
def checkOutNotes (prev notes : Option String) : Option String :=
  if jsTruthy notes then
    match prev, notes with
    | p, some n => if jsTruthy p then some (p.getD "" ++ " | Checkout: " ++ n) else some ("Checkout: " ++ n)
    | _, none => prev
  else prev

/-- `AttendanceService.markCheckOut(attendanceId, checkOutTime, updatedBy,
notes?)`: 404 when the record is missing, 400 when already checked out,
400 when `checkOutTime <= checkIn`; otherwise set checkOut, round the
session hours to two decimals, set isLoggedIn false and save (the save
reruns the pre-save hook, recomputing the same value). -/
def markCheckOut (db : AttendanceDb) (attendanceId : Nat) (checkOutTime : Int)
    (_updatedBy : Nat) (notes : Option String) :
    AttendanceDb × Except AppError AttendanceRecord :=
  match findAttendanceById db.records attendanceId with
  | none => (db, .error ⟨"Attendance record not found", 404⟩)
  | some attendance =>
      if attendance.checkOut.isSome then
        (db, .error ⟨"Already checked out", 400⟩)
      else if checkOutTime ≤ attendance.checkIn then
        (db, .error ⟨"Check-out time must be after check-in time", 400⟩)
      else
        let sessionHours : ℚ := ((checkOutTime - attendance.checkIn : Int) : ℚ) / 3600000
        let updated : AttendanceRecord :=
          preSaveTotalHours
            { attendance with
              checkOut := some checkOutTime
              totalHours := some (round2 sessionHours)
              isLoggedIn := false
              notes := checkOutNotes attendance.notes notes }
        ({ db with records := replaceRecord db.records updated }, .ok updated)

/-! ## Role / permission model (src/services/DocumentService.ts RoleService,
src/models/Role.ts) -/

/-- One Role document (src/models/Role.ts). The schema stores `name` and
`displayName` trimmed and `organizationCode` trimmed and uppercased;
`dataAccessLevel`, audit and timestamp fields are never read by the
modeled operations and are omitted. -/
structure RoleDoc where
  roleId : Nat
  name : String
  displayName : String
  description : Option String
  permissions : List Nat
  isActive : Bool
  isSystemRole : Bool
  level : Nat
  organizationCode : String
deriving DecidableEq, Repr

/-- One Permission document, restricted to the fields `hasPermission`
reads. -/
structure PermissionDoc where
  permId : Nat
  name : String
deriving DecidableEq, Repr

/-- `Role.findById(id)`. -/
def roleFindById (roles : List RoleDoc) (id : Nat) : Option RoleDoc :=
  roles.find? (fun r => r.roleId == id)

/-- `Role.findOne({ _id: roleId, organizationCode })`: since `_id` is the
primary key, the compound query resolves through it and then checks the
tenant filter. -/
def roleFindOne (roles : List RoleDoc) (id : Nat) (oc : String) : Option RoleDoc :=
  match roleFindById roles id with
  | some r => if r.organizationCode == oc then some r else none
  | none => none

/-- Mongoose string setters of `organizationCode` (trim, then
uppercase). -/
def normOrgCode (s : String) : String := jsToUpper (jsTrim s)

/-- Write-back of one role document by `_id`. -/
def replaceRole (roles : List RoleDoc) (r : RoleDoc) : List RoleDoc :=
  roles.map (fun x => if x.roleId == r.roleId then r else x)

/-- src/types/index.ts `IRoleCreateInput`. -/
structure RoleCreateInput where
  name : String
  displayName : String
  description : Option String := none
  level : Nat
  isActive : Option Bool := none

/-- src/types/index.ts `IRoleUpdateInput`: every field optional. -/
structure RoleUpdateInput where
  name : Option String := none
  displayName : Option String := none
  description : Option String := none
  level : Option Nat := none
  isActive : Option Bool := none

/-- The document that
`new Role({ ...roleData, organizationCode, createdBy, updatedBy })`
persists once the schema setters and defaults have run: name and display
name trimmed, organization code trimmed and uppercased, empty permission
set, `isSystemRole` defaulting to false. -/
def newRoleDoc (nextId : Nat) (data : RoleCreateInput)
    (organizationCode : String) : RoleDoc :=
  { roleId := nextId
    name := jsTrim data.name
    displayName := jsTrim data.displayName
    description := data.description
    permissions := []
    isActive := data.isActive.getD true
    isSystemRole := false
    level := data.level
    organizationCode := normOrgCode organizationCode }

/-- `RoleService.createRole(roleData, organizationCode, userId)`:
reject 400 when a role of the same name already exists in the
(uppercased) organization; otherwise save a new non-system role with the
schema setters applied. A save colliding with the unique
`(name, organizationCode)` index surfaces as the E11000 handler's 400. -/
def createRole (roles : List RoleDoc) (nextId : Nat) (data : RoleCreateInput)
    (organizationCode : String) (_userId : Nat) :
    (List RoleDoc × Nat) × Except ApiError RoleDoc :=
  if (roles.find? (fun r =>
        r.name == data.name && r.organizationCode == jsToUpper organizationCode)).isSome then
    ((roles, nextId), .error ⟨"Role name already exists in this organization", 400⟩)
  else
    let newRole : RoleDoc := newRoleDoc nextId data (jsToUpper organizationCode)
    if (roles.find? (fun r =>
          r.name == newRole.name && r.organizationCode == newRole.organizationCode)).isSome then
      ((roles, nextId), .error ⟨"Role with this name already exists", 400⟩)
    else
      ((roles ++ [newRole], nextId + 1), .ok newRole)

/-- Merge of `findByIdAndUpdate(roleId, { ...updateData, updatedBy })`
with the schema string setters. -/
def applyRoleUpdate (r : RoleDoc) (u : RoleUpdateInput) : RoleDoc :=
  { r with
    name := match u.name with | some n => jsTrim n | none => r.name
    displayName := match u.displayName with | some n => jsTrim n | none => r.displayName
    description := match u.description with | some d => some d | none => r.description
    level := u.level.getD r.level
    isActive := u.isActive.getD r.isActive }

/-- `RoleService.updateRole(roleId, updateData, organizationCode, userId)`:
404 when the role is not in the tenant, 403 on a system role, 400 when a
renaming collides with another role of the organization, otherwise the
merged update. -/
def updateRole (roles : List RoleDoc) (roleId : Nat) (updateData : RoleUpdateInput)
    (organizationCode : String) (_userId : Nat) :
    List RoleDoc × Except ApiError RoleDoc :=
  match roleFindOne roles roleId (jsToUpper organizationCode) with
  | none => (roles, .error ⟨"Role not found", 404⟩)
  | some role =>
      if role.isSystemRole then
        (roles, .error ⟨"Cannot update system role", 403⟩)
      else
        let rename :=
          match updateData.name with
          | some n => !n.isEmpty && n != role.name
          | none => false
        if rename &&
            (roles.find? (fun r =>
              some r.name == updateData.name &&
              r.organizationCode == jsToUpper organizationCode &&
              r.roleId != roleId)).isSome then
          (roles, .error ⟨"Role name already exists in this organization", 400⟩)
        else
          let updated := applyRoleUpdate role updateData
          (replaceRole roles updated, .ok updated)

/-- `RoleService.deleteRole(roleId, organizationCode)`: 404 when not in
the tenant, 403 on a system role, 400 while any User of the organization
carries the role's numeric level, otherwise `findByIdAndDelete`. -/
def deleteRole (roles : List RoleDoc) (users : List UserDoc) (roleId : Nat)
    (organizationCode : String) :
    List RoleDoc × Except ApiError Unit :=
  match roleFindOne roles roleId (jsToUpper organizationCode) with
  | none => (roles, .error ⟨"Role not found", 404⟩)
  | some role =>
      if role.isSystemRole then
        (roles, .error ⟨"Cannot delete system role", 403⟩)
      else
        let userCount := users.countP (fun u =>
          u.role == role.level && u.organizationCode == jsToUpper organizationCode)
        if userCount > 0 then
          (roles, .error ⟨"Cannot delete role that is assigned to " ++ toString userCount ++ " users", 400⟩)
        else
          (roles.filter (fun r => r.roleId != roleId), .ok ())

/-- `RoleService.addPermissions(roleId, permissionIds)`: 404 when the role
is missing, 403 on a system role, 400 when some referenced permission does
not exist (`find({_id: {$in: ids}}).countDocuments() !== ids.length`), 400
when every id is already assigned, otherwise append the new ids. -/
def addPermissions (roles : List RoleDoc) (perms : List PermissionDoc)
    (roleId : Nat) (permissionIds : List Nat) :
    List RoleDoc × Except ApiError RoleDoc :=
  match roleFindById roles roleId with
  | none => (roles, .error ⟨"Role not found", 404⟩)
  | some role =>
      if role.isSystemRole then
        (roles, .error ⟨"Cannot modify system role permissions", 403⟩)
      else
        let validPermissions := perms.countP (fun p => permissionIds.contains p.permId)
        if validPermissions != permissionIds.length then
          (roles, .error ⟨"Some permissions are invalid", 400⟩)
        else
          let newPermissions := permissionIds.filter (fun i => !role.permissions.contains i)
          if newPermissions.length == 0 then
            (roles, .error ⟨"All permissions are already assigned to this role", 400⟩)
          else
            let updated := { role with permissions := role.permissions ++ newPermissions }
            (replaceRole roles updated, .ok updated)

/-- `RoleService.removePermissions(roleId, permissionIds)`: 404 when the
role is missing, 403 on a system role, otherwise filter the ids out. -/
def removePermissions (roles : List RoleDoc) (roleId : Nat)
    (permissionIds : List Nat) :
    List RoleDoc × Except ApiError RoleDoc :=
  match roleFindById roles roleId with
  | none => (roles, .error ⟨"Role not found", 404⟩)
  | some role =>
      if role.isSystemRole then
        (roles, .error ⟨"Cannot modify system role permissions", 403⟩)
      else
        let updated := { role with
          permissions := role.permissions.filter (fun p => !permissionIds.contains p) }
        (replaceRole roles updated, .ok updated)

/-- `.populate(permissions)`: resolve each referenced id to its document;
Mongoose drops unresolved references from populated arrays, so every
element of the result is a permission object. -/
def populatePermissions (perms : List PermissionDoc) (ids : List Nat) :
    List PermissionDoc :=
  ids.filterMap (fun i => perms.find? (fun p => p.permId == i))

/-- `RoleService.hasPermission(roleId, permissionName)`: the whole body is
wrapped in try/catch, so a failing lookup (`dbResult = .error`) yields
false; a missing role yields false; otherwise
`role.permissions.some(p => typeof p === object && p.name === permissionName)`
over the populated set. -/
def hasPermission (dbResult : Except Unit (List RoleDoc))
    (perms : List PermissionDoc) (roleId : Nat) (permissionName : String) : Bool :=
  match dbResult with
  | .error _ => false
  | .ok roles =>
      match roleFindById roles roleId with
      | none => false
      | some role =>
          (populatePermissions perms role.permissions).any
            (fun p => p.name == permissionName)

/-! ## User queries (src/services/UserService.ts) -/

/-- The projection `select(_id email fullName role)` of
`getUsersAboveRole`. -/
structure UserSummary where
  userId : Nat
  email : String
  fullName : String
  role : Nat
deriving DecidableEq, Repr

/-- The sort `{ role: 1, fullName: 1 }`. -/
def userRoleNameLe (a b : UserDoc) : Bool :=
  a.role < b.role || (a.role == b.role && a.fullName ≤ b.fullName)

/-- `UserService.getUsersAboveRole(role, organizationCode)`: active users
of the organization with numeric role strictly below the given one, sorted
by role then full name, projected to summaries. -/
def getUsersAboveRole (users : List UserDoc) (role : Nat)
    (organizationCode : String) : List UserSummary :=
  (((users.filter (fun u =>
      u.role < role && u.organizationCode == organizationCode &&
      u.status == UserStatus.active)).mergeSort userRoleNameLe).map
    (fun u => ⟨u.userId, u.email, u.fullName, u.role⟩))

/-! ## Concrete sample documents used by the witness statements -/

/-- An active employee of organization ACME. -/
def sampleActiveUser : UserDoc :=
  { userId := 1, email := "alice@acme.com", fullName := "Alice", role := 5,
    status := UserStatus.active, organizationCode := "ACME" }

/-- An inactive employee of organization ACME. -/
def sampleInactiveUser : UserDoc :=
  { userId := 2, email := "bob@acme.com", fullName := "Bob", role := 5,
    status := UserStatus.inactive, organizationCode := "ACME" }

/-- The empty attendance collection. -/
def emptyAttendanceDb : AttendanceDb := { records := [], nextId := 0 }

/-- An open attendance record (checked in at epoch, not checked out). -/
def sampleOpenRecord : AttendanceRecord :=
  { recId := 0, employeeId := 1, date := 0, checkIn := 0, checkOut := none,
    totalHours := none, status := AttendanceStatus.present, notes := none,
    isLoggedIn := true }

/-- A closed attendance record of employee 1 for day 0 with an earlier
status LATE, used to exercise the reopen transition. -/
def sampleClosedLateRecord : AttendanceRecord :=
  { recId := 0, employeeId := 1, date := 0, checkIn := 32400000,
    checkOut := some 46800000, totalHours := some 4,
    status := AttendanceStatus.late, notes := none, isLoggedIn := false }

/-- A system role of organization ACME. -/
def sampleSystemRole : RoleDoc :=
  { roleId := 1, name := "super_admin", displayName := "Super Admin",
    description := none, permissions := [], isActive := true,
    isSystemRole := true, level := 1, organizationCode := "ACME" }

/-- An ordinary (non-system) role of organization ACME at level 50. -/
def sampleRecruiterRole : RoleDoc :=
  { roleId := 2, name := "Recruiter", displayName := "Recruiter",
    description := none, permissions := [], isActive := true,
    isSystemRole := false, level := 50, organizationCode := "ACME" }

/-- A user of organization ACME holding numeric role level 50. -/
def sampleLevel50User : UserDoc :=
  { userId := 3, email := "carol@acme.com", fullName := "Carol", role := 50,
    status := UserStatus.active, organizationCode := "ACME" }

/-- Creation input for a Recruiter role. -/
def sampleRoleInput : RoleCreateInput :=
  { name := "Recruiter", displayName := "Recruiter", level := 50 }

/-- The document created by the first clock-in of a day at `t1` (the
create branch of markAttendance with no optional input). -/
def firstOpenRecord (rid e : Nat) (t1 : Int) : AttendanceRecord :=
  { recId := rid, employeeId := e, date := localMidnight t1, checkIn := t1,
    checkOut := none, totalHours := none, status := AttendanceStatus.present,
    notes := none, isLoggedIn := true }

/-- The same document after markCheckOut at `t2`. -/
def closedRecord (rid e : Nat) (t1 t2 : Int) : AttendanceRecord :=
  { recId := rid, employeeId := e, date := localMidnight t1, checkIn := t1,
    checkOut := some t2,
    totalHours := some (round2 (((t2 - t1 : Int) : ℚ) / 3600000)),
    status := AttendanceStatus.present, notes := none, isLoggedIn := false }

/-- The same document after the same-day reopen. -/
def reopenedRecord (rid e : Nat) (t1 t2 : Int) : AttendanceRecord :=
  { recId := rid, employeeId := e, date := localMidnight t1, checkIn := t1,
    checkOut := none,
    totalHours := some (round2 (((t2 - t1 : Int) : ℚ) / 3600000)),
    status := AttendanceStatus.present, notes := none, isLoggedIn := true }

/-! ## Helper lemmas -/

/-- Local midnight is idempotent: `msPerDay * k / msPerDay = k` under the
floor division of `Int`. -/
theorem localMidnight_idem (t : Int) : localMidnight (localMidnight t) = localMidnight t := by
  unfold localMidnight
  rw [Int.mul_ediv_cancel_left _ (by decide : (msPerDay : Int) ≠ 0)]

/-- `findOne` over a split collection. -/
theorem getTodayAttendance_append (l₁ l₂ : List AttendanceRecord) (u : Nat) (d : Int) :
    getTodayAttendance (l₁ ++ l₂) u d =
      (getTodayAttendance l₁ u d).or (getTodayAttendance l₂ u d) := by
  unfold getTodayAttendance
  exact List.find?_append

/-- The middleware agrees with the precedence-then-format acceptance
function: it returns `ok` exactly on `acceptedOrgCode`, and a 400 error
otherwise. -/
theorem extract_matches_accepted (req : OrgRequest) :
    extractOrganizationCode req =
      (match acceptedOrgCode req with
       | some c => .ok c
       | none =>
           match pickOrgCode req with
           | none => .error ⟨"Organization code is required. Please provide it in X-Organization-Code header, request body, or query parameter.", 400⟩
           | some _ => .error ⟨"Invalid organization code format. Must be 2-10 characters, alphanumeric only.", 400⟩) := by
  obtain ⟨h, b, q⟩ := req
  rcases h with _ | hs <;> rcases b with _ | bs <;> rcases q with _ | qs <;>
    simp only [extractOrganizationCode, acceptedOrgCode, pickOrgCode, jsTruthy] <;>
    split_ifs <;> simp_all <;> (try (split_ifs <;> rfl))

/-! ## Claim theorems -/

/-- C5, counterexample: the middleware trims before validating, so the
input " ab" (leading space) is accepted and stored as "AB", while the
claim's acceptance predicate — match `^[A-Z0-9]{2,10}$` after uppercasing
alone — rejects it. -/
theorem extractOrganizationCode_claim_counterexample :
    extractOrganizationCode { header := some " ab", body := none, query := none } =
      .ok "AB"
    ∧ orgCodeFormat (jsToUpper " ab") = false := by
  exact ⟨rfl, by decide⟩

/-- C5 (amended): extractOrganizationCode accepts exactly those requests
whose organization code — taken from the header, else the body, else the
query, in that precedence order — matches `^[A-Z0-9]{2,10}$` after
trimming surrounding whitespace and uppercasing, storing the trimmed
uppercased code on the request; every other input, including missing
input, is rejected with a 400 BadRequest error. -/
theorem extractOrganizationCode_accepts_iff (req : OrgRequest) :
    (∀ c, extractOrganizationCode req = .ok c ↔ acceptedOrgCode req = some c)
    ∧ (acceptedOrgCode req = none →
        ∃ m, extractOrganizationCode req = .error ⟨m, 400⟩) := by
  constructor
  · intro c
    rw [extract_matches_accepted req]
    constructor
    · intro hok
      rcases hacc : acceptedOrgCode req with _ | a
      · rw [hacc] at hok
        rcases hp : pickOrgCode req with _ | s <;> rw [hp] at hok <;> cases hok
      · rw [hacc] at hok
        cases hok
        rfl
    · intro hacc
      rw [hacc]
  · intro hnone
    rw [extract_matches_accepted req, hnone]
    rcases hp : pickOrgCode req with _ | s <;> exact ⟨_, rfl⟩

/-- Witness for the amended C5 theorem at concrete requests: the empty
request is rejected with a 400 error, and a lowercase 2-character code is
accepted as its uppercased form. -/
theorem extractOrganizationCode_accepts_iff_witness :
    (∃ m, extractOrganizationCode { header := none, body := none, query := none } =
      .error ⟨m, 400⟩)
    ∧ extractOrganizationCode { header := some "ac", body := none, query := none } =
      .ok "AC" :=
  ⟨(extractOrganizationCode_accepts_iff
      { header := none, body := none, query := none }).2 (by decide),
   ((extractOrganizationCode_accepts_iff
      { header := some "ac", body := none, query := none }).1 "AC").2 (by decide)⟩

/-- C8: getUsersAboveRole returns exactly the active users of the given
organization whose numeric role is strictly below the given value
(projected to the selected fields), and no returned entry carries a role
greater than or equal to the given value. -/
theorem getUsersAboveRole_characterization (users : List UserDoc) (role : Nat)
    (oc : String) :
    (∀ x, x ∈ getUsersAboveRole users role oc ↔
      ∃ u ∈ users, u.role < role ∧ u.organizationCode = oc ∧
        u.status = UserStatus.active ∧
        x = ⟨u.userId, u.email, u.fullName, u.role⟩)
    ∧ ∀ x ∈ getUsersAboveRole users role oc, x.role < role := by
  have hmem : ∀ x, x ∈ getUsersAboveRole users role oc ↔
      ∃ u ∈ users, u.role < role ∧ u.organizationCode = oc ∧
        u.status = UserStatus.active ∧
        x = ⟨u.userId, u.email, u.fullName, u.role⟩ := by
    intro x
    unfold getUsersAboveRole
    simp only [List.mem_map, List.mem_mergeSort, List.mem_filter,
      Bool.and_eq_true, decide_eq_true_eq, beq_iff_eq]
    constructor
    · rintro ⟨u, ⟨hu, ⟨hr, ho⟩, hs⟩, hx⟩
      exact ⟨u, hu, hr, ho, hs, hx.symm⟩
    · rintro ⟨u, hu, hr, ho, hs, hx⟩
      exact ⟨u, ⟨hu, ⟨hr, ho⟩, hs⟩, hx.symm⟩
  refine ⟨hmem, fun x hx => ?_⟩
  obtain ⟨u, _, hr, _, _, hxu⟩ := (hmem x).1 hx
  subst hxu
  exact hr

/-- C10: hasPermission is a total boolean function: it returns false when
the database lookup fails or the role does not exist, and returns true
exactly when the populated permission set of the role contains a
permission whose name equals the requested one. -/
theorem hasPermission_characterization (dbResult : Except Unit (List RoleDoc))
    (perms : List PermissionDoc) (roleId : Nat) (permissionName : String) :
    (hasPermission dbResult perms roleId permissionName = true ↔
      ∃ roles role, dbResult = .ok roles ∧ roleFindById roles roleId = some role ∧
        ∃ p ∈ populatePermissions perms role.permissions, p.name = permissionName)
    ∧ (∀ e, dbResult = .error e →
        hasPermission dbResult perms roleId permissionName = false)
    ∧ (∀ roles, dbResult = .ok roles → roleFindById roles roleId = none →
        hasPermission dbResult perms roleId permissionName = false) := by
  have hok : ∀ (roles : List RoleDoc),
      hasPermission (.ok roles) perms roleId permissionName =
        match roleFindById roles roleId with
        | none => false
        | some role =>
            (populatePermissions perms role.permissions).any
              (fun p => p.name == permissionName) := fun _ => rfl
  refine ⟨?_, ?_, ?_⟩
  · rcases dbResult with e | roles
    · simp only [hasPermission]
      constructor
      · intro h
        cases h
      · rintro ⟨roles, role, hr, _⟩
        cases hr
    · rw [hok roles]
      rcases hfind : roleFindById roles roleId with _ | role
      · constructor
        · intro h
          cases h
        · rintro ⟨roles2, role2, hr2, hfind2, _⟩
          cases hr2
          rw [hfind] at hfind2
          cases hfind2
      · simp only [List.any_eq_true, beq_iff_eq]
        constructor
        · rintro ⟨p, hp, hname⟩
          exact ⟨roles, role, rfl, hfind, p, hp, hname⟩
        · rintro ⟨roles2, role2, hr2, hfind2, p, hp, hname⟩
          cases hr2
          rw [hfind] at hfind2
          cases hfind2
          exact ⟨p, hp, hname⟩
  · rintro e rfl
    rfl
  · rintro roles rfl hnone
    rw [hok roles, hnone]

/-- Witness for the C10 theorem at concrete inputs: a failing lookup and a
missing role both give false. -/
theorem hasPermission_characterization_witness :
    hasPermission (.error ()) [] 1 "users:create" = false
    ∧ hasPermission (.ok []) [] 1 "users:create" = false :=
  ⟨(hasPermission_characterization (.error ()) [] 1 "users:create").2.1 () rfl,
   (hasPermission_characterization (.ok []) [] 1 "users:create").2.2 [] rfl rfl⟩

/-- C2: for an attendance record (checkIn is required by the schema),
markCheckOut fails with a 400 error whenever the record already has a
checkOut or `checkOutTime <= checkIn`; otherwise it succeeds and sets
`totalHours = (checkOutTime - checkIn) / 3600000` rounded to two decimals
and isLoggedIn to false. -/
theorem markCheckOut_ordering (db : AttendanceDb) (rid : Nat) (t : Int) (ub : Nat)
    (notes : Option String) (a : AttendanceRecord)
    (ha : findAttendanceById db.records rid = some a) :
    ((a.checkOut ≠ none ∨ t ≤ a.checkIn) →
      ∃ e : AppError, markCheckOut db rid t ub notes = (db, .error e) ∧ e.status = 400)
    ∧ (a.checkOut = none → a.checkIn < t →
      ∃ r, (markCheckOut db rid t ub notes).2 = .ok r
        ∧ r.totalHours = some (round2 (((t - a.checkIn : Int) : ℚ) / 3600000))
        ∧ r.isLoggedIn = false) := by
  constructor
  · intro hbad
    unfold markCheckOut
    simp only [ha]
    rcases hco : a.checkOut with _ | co
    · have hle : t ≤ a.checkIn := by
        rcases hbad with h | h
        · exact absurd hco h
        · exact h
      simp only [Option.isSome_none, Bool.false_eq_true, if_false, if_pos hle]
      exact ⟨_, rfl, rfl⟩
    · simp only [Option.isSome_some, if_true]
      exact ⟨_, rfl, rfl⟩
  · intro hco hlt
    unfold markCheckOut
    simp only [ha, hco]
    simp only [Option.isSome_none, Bool.false_eq_true, if_false,
      if_neg (not_le.mpr hlt)]
    exact ⟨_, rfl, rfl, rfl⟩

/-- Witness for the C2 theorem: checking out the open epoch record one
hour later succeeds with totalHours 1 and isLoggedIn false, and checking
out at the check-in instant fails with a 400 error. -/
theorem markCheckOut_ordering_witness :
    (∃ r, (markCheckOut { records := [sampleOpenRecord], nextId := 1 } 0 3600000 1 none).2 =
        .ok r
      ∧ r.totalHours = some (round2 (((3600000 - sampleOpenRecord.checkIn : Int) : ℚ) / 3600000))
      ∧ r.isLoggedIn = false)
    ∧ (∃ e : AppError,
        markCheckOut { records := [sampleOpenRecord], nextId := 1 } 0 0 1 none =
          ({ records := [sampleOpenRecord], nextId := 1 }, .error e) ∧ e.status = 400) :=
  ⟨(markCheckOut_ordering { records := [sampleOpenRecord], nextId := 1 } 0 3600000 1 none
      sampleOpenRecord rfl).2 rfl (by decide),
   (markCheckOut_ordering { records := [sampleOpenRecord], nextId := 1 } 0 0 1 none
      sampleOpenRecord rfl).1 (Or.inr (by decide))⟩

/-- C6, counterexample: the service only checks that the employee id
resolves; an inactive employee's clock-in succeeds, where the claim
demands a 404 rejection. -/
theorem markAttendance_inactive_accepted :
    sampleInactiveUser.status ≠ UserStatus.active
    ∧ ((markAttendance [sampleInactiveUser] emptyAttendanceDb
        { employeeId := 2, checkIn := 32400000 } 2).2).isOk = true :=
  ⟨by decide, rfl⟩

/-- C6 (amended): markAttendance verifies only that the employee ID
resolves to a user before touching any record: an unresolvable ID fails
with the 404 "Employee not found" error and leaves the attendance state
unchanged; the status of the resolved user is not consulted, and for any
resolvable employee — active or not — a same-day re-clock-in is never
rejected. -/
theorem markAttendance_employee_existence (users : List UserDoc) (db : AttendanceDb)
    (d : MarkAttendanceData) (cb : Nat) :
    (userFindById users d.employeeId = none →
      markAttendance users db d cb = (db, .error ⟨"Employee not found", 404⟩))
    ∧ (∀ u, userFindById users d.employeeId = some u →
      ∃ r, (markAttendance users db d cb).2 = .ok r) := by
  constructor
  · intro h
    unfold markAttendance
    simp only [h]
  · intro u hu
    unfold markAttendance
    simp only [hu]
    rcases hex : getTodayAttendance db.records d.employeeId (localMidnight d.checkIn)
      with _ | ex
    · exact ⟨_, rfl⟩
    · exact ⟨_, rfl⟩

/-- Witness for the amended C6 theorem: an unknown id is rejected with
404; a known (active) employee's clock-in succeeds. -/
theorem markAttendance_employee_existence_witness :
    markAttendance [] emptyAttendanceDb { employeeId := 1, checkIn := 0 } 1 =
      (emptyAttendanceDb, .error ⟨"Employee not found", 404⟩)
    ∧ ∃ r, (markAttendance [sampleActiveUser] emptyAttendanceDb
        { employeeId := 1, checkIn := 0 } 1).2 = .ok r :=
  ⟨(markAttendance_employee_existence [] emptyAttendanceDb
      { employeeId := 1, checkIn := 0 } 1).1 rfl,
   (markAttendance_employee_existence [sampleActiveUser] emptyAttendanceDb
      { employeeId := 1, checkIn := 0 } 1).2 sampleActiveUser rfl⟩

/-- C9: on a same-day re-clock-in against an existing record,
markAttendance keeps checkIn and totalHours, clears checkOut, and
unconditionally overwrites status to PRESENT and isLoggedIn to true —
a previously stored status (late, half-day, ...) is not preserved. -/
theorem markAttendance_reopen_effects (users : List UserDoc) (db : AttendanceDb)
    (d : MarkAttendanceData) (cb : Nat) (u : UserDoc) (ex : AttendanceRecord)
    (hu : userFindById users d.employeeId = some u)
    (hex : getTodayAttendance db.records d.employeeId (localMidnight d.checkIn) = some ex) :
    ∃ r, markAttendance users db d cb =
        ({ db with records := replaceRecord db.records r }, .ok r)
      ∧ r.checkIn = ex.checkIn ∧ r.totalHours = ex.totalHours
      ∧ r.checkOut = none ∧ r.status = AttendanceStatus.present
      ∧ r.isLoggedIn = true ∧ r.recId = ex.recId ∧ r.date = ex.date := by
  refine ⟨{ ex with
            notes := jsOrStr d.notes ex.notes
            status := AttendanceStatus.present
            isLoggedIn := true
            checkOut := none }, ?_, rfl, rfl, rfl, rfl, rfl, rfl, rfl⟩
  unfold markAttendance
  simp only [hu, hex]

/-- Witness for the C9 theorem: reopening a closed record that was marked
LATE keeps its first check-in and hours but forces status PRESENT. -/
theorem markAttendance_reopen_effects_witness :
    ∃ r, markAttendance [sampleActiveUser]
        { records := [sampleClosedLateRecord], nextId := 1 }
        { employeeId := 1, checkIn := 50400000 } 1 =
      ({ records := replaceRecord [sampleClosedLateRecord] r, nextId := 1 }, .ok r)
      ∧ r.checkIn = sampleClosedLateRecord.checkIn
      ∧ r.totalHours = sampleClosedLateRecord.totalHours
      ∧ r.checkOut = none ∧ r.status = AttendanceStatus.present
      ∧ r.isLoggedIn = true ∧ r.recId = sampleClosedLateRecord.recId
      ∧ r.date = sampleClosedLateRecord.date :=
  markAttendance_reopen_effects [sampleActiveUser]
    { records := [sampleClosedLateRecord], nextId := 1 }
    { employeeId := 1, checkIn := 50400000 } 1 sampleActiveUser
    sampleClosedLateRecord rfl (by decide)

/-- C3: updateRole, deleteRole, addPermissions and removePermissions all
fail with a 403 Forbidden whenever the target role has isSystemRole=true,
regardless of the caller and of the submitted data, and the role
collection is left unchanged in every such case (updateRole and deleteRole
look the role up inside the caller's organization; the permission
operations look it up by id alone). -/
theorem systemRole_immutable (roles : List RoleDoc) (users : List UserDoc)
    (perms : List PermissionDoc) (rid : Nat) (oc : String) (uid : Nat)
    (upd : RoleUpdateInput) (pids : List Nat) (role : RoleDoc)
    (hfind : roleFindById roles rid = some role)
    (hsys : role.isSystemRole = true) :
    (role.organizationCode = jsToUpper oc →
      updateRole roles rid upd oc uid =
        (roles, .error ⟨"Cannot update system role", 403⟩)
      ∧ deleteRole roles users rid oc =
        (roles, .error ⟨"Cannot delete system role", 403⟩))
    ∧ addPermissions roles perms rid pids =
        (roles, .error ⟨"Cannot modify system role permissions", 403⟩)
    ∧ removePermissions roles rid pids =
        (roles, .error ⟨"Cannot modify system role permissions", 403⟩) := by
  refine ⟨fun horg => ⟨?_, ?_⟩, ?_, ?_⟩
  · unfold updateRole roleFindOne
    simp [hfind, horg, hsys]
  · unfold deleteRole roleFindOne
    simp [hfind, horg, hsys]
  · unfold addPermissions
    simp [hfind, hsys]
  · unfold removePermissions
    simp [hfind, hsys]

/-- Witness for the C3 theorem: all four mutators reject the sample
system role of organization ACME with 403 and leave the collection
unchanged. -/
theorem systemRole_immutable_witness :
    (updateRole [sampleSystemRole] 1 {} "ACME" 9 =
      ([sampleSystemRole], .error ⟨"Cannot update system role", 403⟩)
    ∧ deleteRole [sampleSystemRole] [] 1 "ACME" =
      ([sampleSystemRole], .error ⟨"Cannot delete system role", 403⟩))
    ∧ addPermissions [sampleSystemRole] [] 1 [] =
      ([sampleSystemRole], .error ⟨"Cannot modify system role permissions", 403⟩)
    ∧ removePermissions [sampleSystemRole] 1 [] =
      ([sampleSystemRole], .error ⟨"Cannot modify system role permissions", 403⟩) :=
  ⟨(systemRole_immutable [sampleSystemRole] [] [] 1 "ACME" 9 {} [] sampleSystemRole
      rfl rfl).1 (by decide),
   (systemRole_immutable [sampleSystemRole] [] [] 1 "ACME" 9 {} [] sampleSystemRole
      rfl rfl).2.1,
   (systemRole_immutable [sampleSystemRole] [] [] 1 "ACME" 9 {} [] sampleSystemRole
      rfl rfl).2.2⟩

/-- C7: deleteRole on a non-system role of the caller's organization fails
with the 400 assigned-users conflict error while at least one User of the
same organization carries the role's numeric level, and succeeds — the
role is removed — once no such user exists. -/
theorem deleteRole_checks_references (roles : List RoleDoc) (users : List UserDoc)
    (rid : Nat) (oc : String) (role : RoleDoc)
    (hfind : roleFindOne roles rid (jsToUpper oc) = some role)
    (hsys : role.isSystemRole = false) :
    ((∃ u ∈ users, u.role = role.level ∧ u.organizationCode = jsToUpper oc) →
      ∃ e : ApiError, deleteRole roles users rid oc = (roles, .error e)
        ∧ e.status = 400)
    ∧ ((∀ u ∈ users, ¬(u.role = role.level ∧ u.organizationCode = jsToUpper oc)) →
      deleteRole roles users rid oc =
        (roles.filter (fun r => r.roleId != rid), .ok ())
      ∧ roleFindById (roles.filter (fun r => r.roleId != rid)) rid = none) := by
  constructor
  · intro hassigned
    unfold deleteRole
    simp only [hfind, hsys, Bool.false_eq_true, if_false]
    have hpos : 0 < users.countP (fun u =>
        u.role == role.level && u.organizationCode == jsToUpper oc) := by
      rw [List.countP_pos_iff]
      obtain ⟨u, hu, hr, ho⟩ := hassigned
      exact ⟨u, hu, by simp [hr, ho]⟩
    rw [if_pos hpos]
    exact ⟨_, rfl, rfl⟩
  · intro hnone
    have hzero : users.countP (fun u =>
        u.role == role.level && u.organizationCode == jsToUpper oc) = 0 := by
      rw [List.countP_eq_zero]
      intro u hu
      simp only [Bool.and_eq_true, beq_iff_eq]
      intro ⟨hr, ho⟩
      exact hnone u hu ⟨hr, ho⟩
    constructor
    · unfold deleteRole
      simp only [hfind, hsys, Bool.false_eq_true, if_false, hzero]
      rw [if_neg (lt_irrefl 0)]
    · unfold roleFindById
      rw [List.find?_eq_none]
      intro r hr
      rw [List.mem_filter] at hr
      simp only [bne_iff_ne, ne_eq] at hr
      simp [hr.2]

/-- Witness for the C7 theorem: the Recruiter role (level 50) of ACME
cannot be deleted while Carol (role 50, ACME) exists, and is removed once
the user list is empty. -/
theorem deleteRole_checks_references_witness :
    (∃ e : ApiError, deleteRole [sampleRecruiterRole] [sampleLevel50User] 2 "ACME" =
      ([sampleRecruiterRole], .error e) ∧ e.status = 400)
    ∧ (deleteRole [sampleRecruiterRole] [] 2 "ACME" =
        ([sampleRecruiterRole].filter (fun r => r.roleId != 2), .ok ())
      ∧ roleFindById ([sampleRecruiterRole].filter (fun r => r.roleId != 2)) 2 = none) :=
  ⟨(deleteRole_checks_references [sampleRecruiterRole] [sampleLevel50User] 2 "ACME"
      sampleRecruiterRole rfl rfl).1
      ⟨sampleLevel50User, by decide, by decide, by decide⟩,
   (deleteRole_checks_references [sampleRecruiterRole] [] 2 "ACME"
      sampleRecruiterRole rfl rfl).2 (by simp)⟩

/-- C4: createRole fails with the duplicate-name conflict error when a
role with the requested name already exists in the same (uppercased)
organization code; when no role of that name (nor of its trimmed form,
which is what the schema stores and the unique (name, organizationCode)
index compares) exists in the organization, it succeeds — and then a
second create of the same name in the same organization fails with a
400 conflict, while the name may coexist in a different organization:
uniqueness is scoped per tenant. -/
theorem createRole_unique_per_org (roles : List RoleDoc) (nextId : Nat)
    (data : RoleCreateInput) (oc : String) (uid : Nat)
    (hoc : normOrgCode (jsToUpper oc) = jsToUpper oc) :
    ((∃ r ∈ roles, r.name = data.name ∧ r.organizationCode = jsToUpper oc) →
      createRole roles nextId data oc uid =
        ((roles, nextId), .error ⟨"Role name already exists in this organization", 400⟩))
    ∧ ((∀ r ∈ roles, r.organizationCode = jsToUpper oc →
          r.name ≠ data.name ∧ r.name ≠ jsTrim data.name) →
      ∃ newRole, createRole roles nextId data oc uid =
          ((roles ++ [newRole], nextId + 1), .ok newRole)
        ∧ newRole.name = jsTrim data.name
        ∧ newRole.organizationCode = jsToUpper oc
        ∧ newRole.isSystemRole = false
        ∧ ∃ e : ApiError,
            createRole (roles ++ [newRole]) (nextId + 1) data oc uid =
              ((roles ++ [newRole], nextId + 1), .error e) ∧ e.status = 400) := by
  constructor
  · intro hdup
    have hsome : (roles.find? (fun r =>
        r.name == data.name && r.organizationCode == jsToUpper oc)).isSome = true := by
      rw [List.find?_isSome]
      obtain ⟨r, hr, h1, h2⟩ := hdup
      exact ⟨r, hr, by simp [h1, h2]⟩
    unfold createRole
    rw [if_pos hsome]
  · intro hfree
    have h1 : roles.find? (fun r =>
        r.name == data.name && r.organizationCode == jsToUpper oc) = none := by
      rw [List.find?_eq_none]
      intro r hr
      simp only [Bool.and_eq_true, beq_iff_eq, not_and]
      intro hn ho
      exact (hfree r hr ho).1 hn
    have h2 : roles.find? (fun r =>
        r.name == (newRoleDoc nextId data (jsToUpper oc)).name &&
        r.organizationCode == (newRoleDoc nextId data (jsToUpper oc)).organizationCode)
        = none := by
      rw [List.find?_eq_none]
      intro r hr
      simp only [newRoleDoc, Bool.and_eq_true, beq_iff_eq, not_and, hoc]
      intro hn ho
      exact (hfree r hr ho).2 hn
    refine ⟨newRoleDoc nextId data (jsToUpper oc), ?_, rfl, hoc, rfl, ?_⟩
    · unfold createRole
      simp only [h1, h2, Option.isSome_none, Bool.false_eq_true, if_false]
    · by_cases htr : jsTrim data.name = data.name
      · refine ⟨⟨"Role name already exists in this organization", 400⟩, ?_, rfl⟩
        have hsome2 : ((roles ++ [newRoleDoc nextId data (jsToUpper oc)]).find? (fun r =>
            r.name == data.name && r.organizationCode == jsToUpper oc)).isSome = true := by
          rw [List.find?_append, h1]
          simp [newRoleDoc, htr, hoc]
        unfold createRole
        rw [if_pos hsome2]
      · refine ⟨⟨"Role with this name already exists", 400⟩, ?_, rfl⟩
        have h1b : ((roles ++ [newRoleDoc nextId data (jsToUpper oc)]).find? (fun r =>
            r.name == data.name && r.organizationCode == jsToUpper oc)) = none := by
          rw [List.find?_append, h1]
          simp [newRoleDoc, htr]
        have h2b : ((roles ++ [newRoleDoc nextId data (jsToUpper oc)]).find? (fun r =>
            r.name == (newRoleDoc (nextId + 1) data (jsToUpper oc)).name &&
            r.organizationCode ==
              (newRoleDoc (nextId + 1) data (jsToUpper oc)).organizationCode)).isSome
            = true := by
          rw [List.find?_append]
          have h2c : roles.find? (fun r =>
              r.name == (newRoleDoc (nextId + 1) data (jsToUpper oc)).name &&
              r.organizationCode ==
                (newRoleDoc (nextId + 1) data (jsToUpper oc)).organizationCode) = none := by
            rw [List.find?_eq_none]
            intro r hr
            simp only [newRoleDoc, Bool.and_eq_true, beq_iff_eq, not_and, hoc]
            intro hn ho
            exact (hfree r hr ho).2 hn
          rw [h2c]
          simp [newRoleDoc]
        unfold createRole
        rw [if_neg (by rw [h1b]; simp), if_pos h2b]

/-- Witness for the C4 theorem: creating Recruiter in ACME on an empty
collection succeeds with a non-system role named Recruiter, and creating
it again in ACME fails with a 400 conflict. -/
theorem createRole_unique_per_org_witness :
    ∃ newRole, createRole [] 0 sampleRoleInput "ACME" 9 =
        (([] ++ [newRole], 0 + 1), .ok newRole)
      ∧ newRole.name = jsTrim sampleRoleInput.name
      ∧ newRole.organizationCode = jsToUpper "ACME"
      ∧ newRole.isSystemRole = false
      ∧ ∃ e : ApiError,
          createRole ([] ++ [newRole]) (0 + 1) sampleRoleInput "ACME" 9 =
            (([] ++ [newRole], 0 + 1), .error e) ∧ e.status = 400 :=
  (createRole_unique_per_org [] 0 sampleRoleInput "ACME" 9 (by decide)).2
    (by simp)

/-- C1: for a clock-in, clock-out, clock-in sequence of the same employee
within the same calendar day (starting from a day with no record for that
employee), the attendance record's checkIn after the second clock-in
equals the checkIn of the first clock-in of the day: the same-day reopen
transition never modifies checkIn. -/
theorem reopen_preserves_first_checkIn
    (users : List UserDoc) (db0 : AttendanceDb) (u : UserDoc)
    (e cb : Nat) (t1 t2 t3 : Int)
    (hu : userFindById users e = some u)
    (hfresh : ∀ r ∈ db0.records, r.recId < db0.nextId)
    (hnone : getTodayAttendance db0.records e (localMidnight t1) = none)
    (ht12 : t1 < t2)
    (hday : localMidnight t3 = localMidnight t1) :
    ∃ r1 r2 r3 db1 db2 db3,
      markAttendance users db0 { employeeId := e, checkIn := t1 } cb = (db1, .ok r1)
      ∧ markCheckOut db1 r1.recId t2 cb none = (db2, .ok r2)
      ∧ markAttendance users db2 { employeeId := e, checkIn := t3 } cb = (db3, .ok r3)
      ∧ r1.checkIn = t1 ∧ r3.checkIn = t1 := by
  refine ⟨firstOpenRecord db0.nextId e t1, closedRecord db0.nextId e t1 t2,
    reopenedRecord db0.nextId e t1 t2,
    { records := db0.records ++ [firstOpenRecord db0.nextId e t1], nextId := db0.nextId + 1 },
    { records := db0.records ++ [closedRecord db0.nextId e t1 t2], nextId := db0.nextId + 1 },
    { records := replaceRecord (db0.records ++ [closedRecord db0.nextId e t1 t2])
        (reopenedRecord db0.nextId e t1 t2), nextId := db0.nextId + 1 },
    ?_, ?_, ?_, rfl, rfl⟩
  · unfold markAttendance
    simp only [hu, hnone]
    rfl
  · unfold markCheckOut
    have hold : List.find? (fun r => r.recId == db0.nextId) db0.records = none := by
      rw [List.find?_eq_none]
      intro x hx
      simp only [beq_iff_eq]
      exact Nat.ne_of_lt (hfresh x hx)
    have hfind2 : findAttendanceById
        (db0.records ++ [firstOpenRecord db0.nextId e t1])
        (firstOpenRecord db0.nextId e t1).recId =
        some (firstOpenRecord db0.nextId e t1) := by
      show findAttendanceById _ db0.nextId = _
      unfold findAttendanceById
      rw [List.find?_append, hold]
      simp [firstOpenRecord]
    have hrep : replaceRecord (db0.records ++ [firstOpenRecord db0.nextId e t1])
        (closedRecord db0.nextId e t1 t2) =
        db0.records ++ [closedRecord db0.nextId e t1 t2] := by
      unfold replaceRecord
      rw [List.map_append]
      have hl : List.map (fun x =>
          if x.recId == (closedRecord db0.nextId e t1 t2).recId then
            closedRecord db0.nextId e t1 t2 else x) db0.records = db0.records := by
        have hcongr := List.map_congr_left (l := db0.records)
          (f := fun x => if x.recId == (closedRecord db0.nextId e t1 t2).recId then
            closedRecord db0.nextId e t1 t2 else x) (g := id)
          (fun x hx => by
            have hne : x.recId ≠ db0.nextId := Nat.ne_of_lt (hfresh x hx)
            simp [closedRecord, hne])
        rw [hcongr, List.map_id]
      rw [hl]
      simp [firstOpenRecord, closedRecord]
    simp only [hfind2]
    rw [if_neg (by simp [firstOpenRecord]),
      if_neg (by simp only [firstOpenRecord]; exact not_le.mpr ht12)]
    exact congrArg (fun l =>
      ((⟨l, db0.nextId + 1⟩ : AttendanceDb),
        Except.ok (closedRecord db0.nextId e t1 t2))) hrep
  · unfold markAttendance
    simp only [hu]
    have hfind3 : getTodayAttendance
        (db0.records ++ [closedRecord db0.nextId e t1 t2]) e (localMidnight t3) =
        some (closedRecord db0.nextId e t1 t2) := by
      rw [hday, getTodayAttendance_append, hnone, Option.none_or]
      have hub : localMidnight t1 ≤ localMidnight t1 + (msPerDay - 1) :=
        Int.le_add_of_nonneg_right (by decide)
      unfold getTodayAttendance
      simp [closedRecord, localMidnight_idem, hub]
    simp only [hfind3]
    rfl

/-- Witness for the C1 theorem at the scenario of the spec: clock in at
09:00, out at 13:00, clock in again at 14:00, all on day zero — the final
record still carries the 09:00 check-in. -/
theorem reopen_preserves_first_checkIn_witness :
    ∃ r1 r2 r3 db1 db2 db3,
      markAttendance [sampleActiveUser] emptyAttendanceDb
        { employeeId := 1, checkIn := 32400000 } 1 = (db1, .ok r1)
      ∧ markCheckOut db1 r1.recId 46800000 1 none = (db2, .ok r2)
      ∧ markAttendance [sampleActiveUser] db2
        { employeeId := 1, checkIn := 50400000 } 1 = (db3, .ok r3)
      ∧ r1.checkIn = 32400000 ∧ r3.checkIn = 32400000 :=
  reopen_preserves_first_checkIn [sampleActiveUser] emptyAttendanceDb sampleActiveUser
    1 1 32400000 46800000 50400000 rfl (by simp [emptyAttendanceDb]) rfl
    (by decide) (by decide)

end ManaHR
